import Mathlib

/-!
Verification of the playback/switching engine of the `landr-mastering`
repository (`src/hooks/useComparePlayer.ts`).

The hook is embedded shallowly: every mutable ref / React state cell of
`useComparePlayer` becomes a field of `EngineState`, and each public
operation (`togglePlay`, `seek`, `switchTrack`, `setVolume`), the buffer
load-resolution callbacks, and the `onended` session-completion handler
become pure state-transition functions.  Times (hardware clock readings,
buffer durations, transport offsets) are rationals; the hardware clock
reading `context.currentTime` is passed explicitly as the `now` argument
of every operation that reads it.  `AudioBuffer`s are represented by their
duration alone, since no modelled observable depends on the samples.
Gain-automation curves (fade ramps) are not part of the observable state;
the fade-seconds arguments of the source are therefore dropped.  The
`AudioContext` is modelled by the flag `hasContext` (the code only ever
tests the context for presence); the suspended-`resume()` path of
`togglePlay` runs the same `startPlayback` closure on success and is
modelled as the running-context path.
-/

namespace LandrMastering

/-- The `TrackId` union type of `src/types/audio.ts`. -/
inductive TrackId
  | original
  | master1
  | master2
  | master3
deriving DecidableEq, Repr

/-- The two error strings the hook stores in its `error` state:
`'Audio failed to load'` (the spec's `LoadError`) and
`'Audio failed to play'` (the spec's `PlaybackError`). -/
inductive EngineError
  | loadError
  | playbackError
deriving DecidableEq, Repr

/-- Source constant `SWITCH_TIME_PADDING = 0.05`. -/
def SWITCH_TIME_PADDING : ℚ := 1/20

/-- Source constant `INITIAL_VOLUME = 0.7`. -/
def INITIAL_VOLUME : ℚ := 7/10

/-- Source constant `SWITCH_CROSSFADE_SECONDS = 0.015`. -/
def SWITCH_CROSSFADE_SECONDS : ℚ := 3/200

/-- Source constant `START_LEAD_TIME_SECONDS = 0.005`. -/
def START_LEAD_TIME_SECONDS : ℚ := 1/200

/-- Source helper `clamp(value, min, max) = Math.min(max, Math.max(min, value))`. -/
def clamp (value lo hi : ℚ) : ℚ := min hi (max lo value)

/-- The engine state: one field per ref / React state cell of the hook.
`buffers` is `buffersRef` (a buffer is its duration); `playback` is
`playbackRef` (a live playback is its session id); `playbackId` is the
`playbackIdRef` counter, incremented exactly once per created playback,
so "no new session was created" is `playbackId` unchanged.
`activeTrackIdRef`/`isPlayingRef` are kept in sync with the React state
by effects, so one field stands for both. -/
structure EngineState where
  buffers : TrackId → Option ℚ
  activeTrackId : TrackId
  isPlaying : Bool
  currentTime : ℚ
  duration : ℚ
  volume : ℚ
  readyTrackCount : ℕ
  totalTracks : ℕ
  error : Option EngineError
  playback : Option ℕ
  playbackId : ℕ
  transportOffset : ℚ
  transportStartContextTime : ℚ
  hasContext : Bool

/-- Derived flag `isLibraryReady = readyTrackCount >= totalTracks`. -/
def isLibraryReady (s : EngineState) : Bool := s.totalTracks ≤ s.readyTrackCount

/-- Source `ensureAudioContext`: creates the context/master gain on first use. -/
def ensureAudioContext (s : EngineState) : EngineState :=
  if s.hasContext then s else { s with hasContext := true }

/-- Source `getTrackDuration(trackId) = buffersRef.current.get(trackId)?.duration ?? 0`. -/
def getTrackDuration (s : EngineState) (trackId : TrackId) : ℚ :=
  (s.buffers trackId).getD 0

/-- Source `getTransportTime(trackId, context)`; `ctx` is whether the passed
context is non-null and `now` is `context.currentTime`. -/
def getTransportTime (s : EngineState) (trackId : TrackId) (ctx : Bool) (now : ℚ) : ℚ :=
  let trackDuration := getTrackDuration s trackId
  if trackDuration ≤ 0 then 0
  else if ¬s.isPlaying ∨ ¬ctx then clamp s.transportOffset 0 trackDuration
  else
    let elapsed := max 0 (now - s.transportStartContextTime)
    let nextTime := s.transportOffset + elapsed
    clamp nextTime 0 trackDuration

/-- Result of a successful `createPlayback`: the values the callers read
(`startAt`, `startOffset`) plus the fresh session id. -/
structure PlaybackResult where
  startAt : ℚ
  startOffset : ℚ
  id : ℕ
deriving DecidableEq, Repr

/-- Source `createPlayback(trackId, when, offset, fadeInSeconds)`: returns `none`
when context, master gain, or buffer is missing; otherwise clamps the
offset into `[0, duration − SWITCH_TIME_PADDING]`, floors the start time
at `now`, and increments the session-id counter.  The gain ramp
(`fadeInSeconds`) and the `onended` registration are not state. -/
def createPlayback (s : EngineState) (trackId : TrackId) (whenAt offset now : ℚ) :
    Option PlaybackResult × EngineState :=
  if s.hasContext then
    match s.buffers trackId with
    | some dur =>
        let safeMaxOffset := max 0 (dur - SWITCH_TIME_PADDING)
        let safeOffset := clamp offset 0 safeMaxOffset
        let startAt := max whenAt now
        let pid := s.playbackId + 1
        (some ⟨startAt, safeOffset, pid⟩, { s with playbackId := pid })
    | none => (none, s)
  else (none, s)

/-- The `source.onended` handler of `createPlayback`, applied when the
source for session `capturedId`, created for track `capturedTrack`, ends:
ignored unless the session id still matches `playbackRef`; otherwise the
playback is cleared, and if the engine is still playing the transport is
frozen at the ended track's full duration and the engine pauses. -/
def sessionEnded (s : EngineState) (capturedId : ℕ) (capturedTrack : TrackId) : EngineState :=
  if s.playback ≠ some capturedId then s
  else
    let s₁ := { s with playback := none }
    if ¬s₁.isPlaying then s₁
    else
      let currentDuration := getTrackDuration s₁ capturedTrack
      { s₁ with transportOffset := currentDuration
                currentTime := currentDuration
                isPlaying := false }

/-- Source `togglePlay()` at hardware time `now`. -/
def togglePlay (s₀ : EngineState) (now : ℚ) : EngineState :=
  let s := ensureAudioContext s₀
  if ¬isLibraryReady s then s
  else
    match s.buffers s.activeTrackId with
    | none => { s with error := some .loadError }
    | some activeDur =>
      if s.isPlaying then
        let pausedAt := getTransportTime s s.activeTrackId true now
        { s with transportOffset := pausedAt
                 currentTime := pausedAt
                 isPlaying := false
                 playback := none }
      else
        -- startPlayback
        let maxOffset := max 0 (activeDur - SWITCH_TIME_PADDING)
        let clamped := clamp s.transportOffset 0 maxOffset
        let startOffset := if maxOffset ≤ clamped then 0 else clamped
        let startAt := now + START_LEAD_TIME_SECONDS
        match createPlayback s s.activeTrackId startAt startOffset now with
        | (none, s₁) => { s₁ with error := some .playbackError }
        | (some next, s₁) =>
            { s₁ with playback := some next.id
                      transportOffset := next.startOffset
                      transportStartContextTime := next.startAt
                      isPlaying := true
                      error := none }

/-- Source `seek(timeInSeconds)` at hardware time `now`. -/
def seek (s : EngineState) (timeInSeconds now : ℚ) : EngineState :=
  match s.buffers s.activeTrackId with
  | none => s
  | some activeDur =>
    let safeTime := clamp timeInSeconds 0 activeDur
    let s₁ := { s with transportOffset := safeTime, currentTime := safeTime }
    if ¬s₁.isPlaying then s₁
    else if ¬s₁.hasContext then s₁
    else
      let switchAt := now + START_LEAD_TIME_SECONDS
      match createPlayback s₁ s₁.activeTrackId switchAt safeTime now with
      | (none, s₂) => s₂
      | (some next, s₂) =>
          { s₂ with playback := some next.id
                    transportOffset := next.startOffset
                    transportStartContextTime := next.startAt }

/-- Source `setVolume(nextVolume)`: clamps to `[0,1]`; the master-gain smoothing
ramp is not state. -/
def setVolume (s : EngineState) (nextVolume : ℚ) : EngineState :=
  { s with volume := clamp nextVolume 0 1 }

/-- Source `switchTrack(nextTrackId)` at hardware time `now`. -/
def switchTrack (s : EngineState) (nextTrackId : TrackId) (now : ℚ) : EngineState :=
  if nextTrackId = s.activeTrackId then s
  else
    let nextBuffer := s.buffers nextTrackId
    let nextDuration := nextBuffer.getD 0
    let transportTime :=
      if s.hasContext then getTransportTime s s.activeTrackId true now
      else s.transportOffset
    let maxOffset := max 0 (nextDuration - SWITCH_TIME_PADDING)
    let nextOffset := clamp transportTime 0 maxOffset
    let s₁ := { s with activeTrackId := nextTrackId
                       transportOffset := nextOffset
                       currentTime := nextOffset
                       duration := nextDuration
                       error := if nextBuffer.isSome then none else some .loadError }
    if ¬s₁.isPlaying ∨ ¬s₁.hasContext ∨ nextBuffer.isNone then s₁
    else
      let switchAt := now + START_LEAD_TIME_SECONDS
      match createPlayback s₁ nextTrackId switchAt nextOffset now with
      | (none, s₂) => { s₂ with error := some .playbackError, isPlaying := false }
      | (some next, s₂) =>
          { s₂ with playback := some next.id
                    transportOffset := next.startOffset
                    transportStartContextTime := next.startAt }

/-- Outcome of one track's fetch-and-decode promise. -/
inductive LoadOutcome
  | success (dur : ℚ)
  | failure
deriving DecidableEq, Repr

/-- The per-track resolution handlers of the load effect: `.then` stores
the buffer and, for the active track, re-clamps the transport and
publishes duration/time; `.catch` surfaces a load error for the active
track; `.finally` increments the resolved count, capped at `totalTracks`,
in every case. -/
def trackLoadResolved (s : EngineState) (trackId : TrackId) (outcome : LoadOutcome) :
    EngineState :=
  let s₁ :=
    match outcome with
    | .success dur =>
        let s' := { s with buffers := fun t => if t = trackId then some dur else s.buffers t }
        if s'.activeTrackId = trackId then
          let safeTime := clamp s'.transportOffset 0 (max 0 (dur - SWITCH_TIME_PADDING))
          { s' with transportOffset := safeTime, duration := dur, currentTime := safeTime }
        else s'
    | .failure =>
        if s.activeTrackId = trackId then { s with error := some .loadError } else s
  { s₁ with readyTrackCount := min s₁.totalTracks (s₁.readyTrackCount + 1) }

/-- The state right after mount for a 4-track library: the load effect has
run `ensureAudioContext`, cleared the buffer map, and reset the ready
count; every React state holds its `useState` initial value. -/
def initState : EngineState where
  buffers := fun _ => none
  activeTrackId := .original
  isPlaying := false
  currentTime := 0
  duration := 0
  volume := INITIAL_VOLUME
  readyTrackCount := 0
  totalTracks := 4
  error := none
  playback := none
  playbackId := 0
  transportOffset := 0
  transportStartContextTime := 0
  hasContext := true

/-- The transport-position formula exactly as §4.2 of the spec words it:
`position(state, now) = clamp(state.offsetSeconds + (state.isPlaying ? now −
state.anchorHardwareTime : 0), 0, duration)`.  Stated only to be compared
with the source's `getTransportTime`; note the spec's elapsed term is not
floored at zero. -/
def specTransportPosition (offsetSeconds anchorHardwareTime : ℚ) (playing : Bool)
    (now dur : ℚ) : ℚ :=
  clamp (offsetSeconds + (if playing then now - anchorHardwareTime else 0)) 0 dur

/-- The stored transport offset is within `[0, duration]` of the active
track (spec invariant 2). -/
def offsetInRange (s : EngineState) : Prop :=
  0 ≤ s.transportOffset ∧ s.transportOffset ≤ getTrackDuration s s.activeTrackId

/-- A fully loaded, playing state: all four buffers decoded with duration 1 s,
one live session, transport at 0. -/
def statePlayingOneSec : EngineState where
  buffers := fun _ => some 1
  activeTrackId := .original
  isPlaying := true
  currentTime := 0
  duration := 1
  volume := INITIAL_VOLUME
  readyTrackCount := 4
  totalTracks := 4
  error := none
  playback := some 1
  playbackId := 1
  transportOffset := 0
  transportStartContextTime := 0
  hasContext := true

/-- Reachable paused state for the C4 counterexample: from mount, all four
buffers resolve with duration 100 s, then `seek(100)` while paused parks the
transport exactly at the full duration. -/
def statePausedAtEnd : EngineState :=
  seek
    (trackLoadResolved
      (trackLoadResolved
        (trackLoadResolved
          (trackLoadResolved initState .original (.success 100))
          .master1 (.success 100))
        .master2 (.success 100))
      .master3 (.success 100))
    100 0

/-- Paused state whose active track failed to decode while the other three
loaded, so the library is ready but the active buffer is missing. -/
def statePausedMissingActive : EngineState where
  buffers := fun t => if t = .original then none else some 1
  activeTrackId := .original
  isPlaying := false
  currentTime := 0
  duration := 0
  volume := INITIAL_VOLUME
  readyTrackCount := 4
  totalTracks := 4
  error := none
  playback := none
  playbackId := 0
  transportOffset := 0
  transportStartContextTime := 0
  hasContext := true

/-- Reachable paused state at 45 s into 100-second buffers, used as the
witness input for the amended C4 claim. -/
def statePausedMid : EngineState :=
  { statePausedAtEnd with currentTime := 45, transportOffset := 45 }

/-- Paused state whose active track is `master-1` while `original` failed to
decode: switching back to `original` hits a missing target buffer. -/
def stateMissingTarget : EngineState :=
  { statePausedMissingActive with activeTrackId := .master1 }

/-- Playing state used as the C7 witness input: 2-second buffers, the live
session (id 1) is about to signal natural completion. -/
def statePlayingNearEnd : EngineState :=
  { statePlayingOneSec with
      buffers := fun _ => some 2
      duration := 2
      transportOffset := 3/2
      transportStartContextTime := 1 }

/-- Playing state used for the C9 counterexample: the session anchor is the
scheduled start `0.005`, and the hardware clock is read at `0`, before the
anchor. -/
def stateAnchorAhead : EngineState :=
  { statePlayingOneSec with
      buffers := fun _ => some 100
      duration := 100
      transportOffset := 10
      transportStartContextTime := 1/200 }

attribute [ext] EngineState

/-! Helper lemmas about `clamp` and `getTransportTime`. -/

theorem clamp_le_hi (value lo hi : ℚ) : clamp value lo hi ≤ hi :=
  min_le_left _ _

theorem lo_le_clamp (value lo hi : ℚ) (h : lo ≤ hi) : lo ≤ clamp value lo hi :=
  le_min h (le_max_left _ _)

theorem clamp_eq_of_mem {value lo hi : ℚ} (h₀ : lo ≤ value) (h₁ : value ≤ hi) :
    clamp value lo hi = value := by
  rw [clamp, max_eq_right h₀, min_eq_right h₁]

theorem clamp_zero_zero (value : ℚ) : clamp value 0 0 = 0 :=
  min_eq_left (le_max_left 0 value)

theorem max_zero_sub_le {d c : ℚ} (hd : 0 ≤ d) (hc : 0 ≤ c) : max 0 (d - c) ≤ d :=
  max_le hd (by linarith)

theorem ensureAudioContext_eq (s : EngineState) (h : s.hasContext = true) :
    ensureAudioContext s = s := by
  simp [ensureAudioContext, h]

theorem getTransportTime_nonneg (s : EngineState) (trackId : TrackId) (ctx : Bool)
    (now : ℚ) : 0 ≤ getTransportTime s trackId ctx now := by
  simp only [getTransportTime]
  split_ifs with h₁ h₂
  · exact le_refl (0 : ℚ)
  · exact lo_le_clamp _ _ _ (by linarith)
  · exact lo_le_clamp _ _ _ (by linarith)

theorem getTransportTime_le_duration (s : EngineState) (trackId : TrackId) (ctx : Bool)
    (now : ℚ) (hd : 0 ≤ getTrackDuration s trackId) :
    getTransportTime s trackId ctx now ≤ getTrackDuration s trackId := by
  simp only [getTransportTime]
  split_ifs with h₁ h₂
  · exact hd
  · exact clamp_le_hi _ _ _
  · exact clamp_le_hi _ _ _

theorem getTransportTime_anchor_ahead (s : EngineState) (trackId : TrackId) (now : ℚ)
    (hanchor : now ≤ s.transportStartContextTime)
    (hoff0 : 0 ≤ s.transportOffset)
    (hoffd : s.transportOffset ≤ getTrackDuration s trackId) :
    getTransportTime s trackId true now = s.transportOffset := by
  have hel : max 0 (now - s.transportStartContextTime) = 0 := max_eq_left (by linarith)
  by_cases hd0 : getTrackDuration s trackId ≤ 0
  · have hz : s.transportOffset = 0 := le_antisymm (le_trans hoffd hd0) hoff0
    simp [getTransportTime, hd0, hz]
  · by_cases hp : s.isPlaying = true
    · simp [getTransportTime, hd0, hp, hel, clamp_eq_of_mem hoff0 hoffd]
    · have hp' : s.isPlaying = false := by simpa using hp
      simp [getTransportTime, hd0, hp', clamp_eq_of_mem hoff0 hoffd]

/-! Theorems for the frozen claims. -/

/-- C5: `switchTrack(currentId)` with the currently active track id is a
no-op: the engine state — session counter, live playback, `activeTrackId`,
`isPlaying`, `currentTime`, `duration`, `volume`, `error`, everything — is
returned unchanged. -/
theorem switchTrack_self_noop (s : EngineState) (now : ℚ) :
    switchTrack s s.activeTrackId now = s := by
  simp [switchTrack]

/-- C8: a completion callback whose captured session id no longer matches
the engine's tracked session (`playbackRef`) leaves the entire state
unchanged: stale completion signals never mutate newer state. -/
theorem stale_sessionEnded_noop (s : EngineState) (capturedId : ℕ)
    (capturedTrack : TrackId) (h : s.playback ≠ some capturedId) :
    sessionEnded s capturedId capturedTrack = s := by
  simp [sessionEnded, h]

/-- Witness for C8: the engine tracks session 1, a callback for the
superseded session 2 arrives and changes nothing. -/
theorem stale_sessionEnded_noop_witness :
    sessionEnded statePlayingOneSec 2 TrackId.original = statePlayingOneSec :=
  stale_sessionEnded_noop statePlayingOneSec 2 TrackId.original (by decide)

/-- C10: `switchTrack` onto a track whose buffer has not loaded publishes
duration 0, resets the reported position and the transport offset to 0,
surfaces the load error, keeps the playing flag as it was, and creates no
playback session. -/
theorem switchTrack_unready_target (s : EngineState) (nextId : TrackId) (now : ℚ)
    (hne : nextId ≠ s.activeTrackId) (hbuf : s.buffers nextId = none) :
    (switchTrack s nextId now).duration = 0 ∧
    (switchTrack s nextId now).currentTime = 0 ∧
    (switchTrack s nextId now).transportOffset = 0 ∧
    (switchTrack s nextId now).error = some EngineError.loadError ∧
    (switchTrack s nextId now).isPlaying = s.isPlaying ∧
    (switchTrack s nextId now).playbackId = s.playbackId ∧
    (switchTrack s nextId now).playback = s.playback ∧
    (switchTrack s nextId now).activeTrackId = nextId := by
  have hmax : (0 : ℚ) ⊔ -SWITCH_TIME_PADDING = 0 := by
    rw [SWITCH_TIME_PADDING]; norm_num
  simp [switchTrack, hne, hbuf, hmax, clamp_zero_zero]

/-- Witness for C10: from a state whose `original` buffer failed to load,
switching from `master-1` back to `original` zeroes duration and position
and records the load error without creating a session. -/
theorem switchTrack_unready_target_witness :
    (switchTrack stateMissingTarget TrackId.original 0).duration = 0 ∧
    (switchTrack stateMissingTarget TrackId.original 0).currentTime = 0 ∧
    (switchTrack stateMissingTarget TrackId.original 0).transportOffset = 0 ∧
    (switchTrack stateMissingTarget TrackId.original 0).error = some EngineError.loadError ∧
    (switchTrack stateMissingTarget TrackId.original 0).isPlaying
      = stateMissingTarget.isPlaying ∧
    (switchTrack stateMissingTarget TrackId.original 0).playbackId
      = stateMissingTarget.playbackId ∧
    (switchTrack stateMissingTarget TrackId.original 0).playback
      = stateMissingTarget.playback ∧
    (switchTrack stateMissingTarget TrackId.original 0).activeTrackId
      = TrackId.original :=
  switchTrack_unready_target stateMissingTarget TrackId.original 0 (by decide) (by decide)

/-- C3: `isLibraryReady` holds exactly when the resolved count equals the
track total (given the count never exceeds the total, which the cap
maintains), and every load resolution — success or failure alike —
advances the capped monotone resolved count, so one failing track cannot
keep the library un-ready. -/
theorem libraryReady_iff_all_resolved (s : EngineState) (trackId : TrackId)
    (outcome : LoadOutcome) (hinv : s.readyTrackCount ≤ s.totalTracks) :
    (isLibraryReady s = true ↔ s.readyTrackCount = s.totalTracks) ∧
    (trackLoadResolved s trackId outcome).readyTrackCount
      = min s.totalTracks (s.readyTrackCount + 1) ∧
    s.readyTrackCount ≤ (trackLoadResolved s trackId outcome).readyTrackCount ∧
    (trackLoadResolved s trackId outcome).readyTrackCount ≤ s.totalTracks := by
  have hcount : (trackLoadResolved s trackId outcome).readyTrackCount
      = min s.totalTracks (s.readyTrackCount + 1) := by
    cases outcome <;> simp [trackLoadResolved] <;> split_ifs <;> rfl
  refine ⟨?_, hcount, ?_, ?_⟩
  · simp only [isLibraryReady, decide_eq_true_eq]
    omega
  · rw [hcount]; omega
  · rw [hcount]; omega

/-- Witness for C3 at the mount state with a failing first track: the
resolved count still advances from 0 to 1. -/
theorem libraryReady_iff_all_resolved_witness :
    (isLibraryReady initState = true ↔ initState.readyTrackCount = initState.totalTracks) ∧
    (trackLoadResolved initState TrackId.original LoadOutcome.failure).readyTrackCount
      = min initState.totalTracks (initState.readyTrackCount + 1) ∧
    initState.readyTrackCount
      ≤ (trackLoadResolved initState TrackId.original LoadOutcome.failure).readyTrackCount ∧
    (trackLoadResolved initState TrackId.original LoadOutcome.failure).readyTrackCount
      ≤ initState.totalTracks :=
  libraryReady_iff_all_resolved initState TrackId.original LoadOutcome.failure (by decide)

/-- C6 counterexample: paused reachable-shape state, library ready, the
active track's buffer missing; `togglePlay` surfaces the *load* error
(`'Audio failed to load'`), not a `PlaybackError` as the claim states; the
engine does remain paused. -/
theorem togglePlay_unready_buffer_counterexample :
    statePausedMissingActive.isPlaying = false ∧
    statePausedMissingActive.buffers statePausedMissingActive.activeTrackId = none ∧
    isLibraryReady statePausedMissingActive = true ∧
    (togglePlay statePausedMissingActive 0).error = some EngineError.loadError ∧
    (togglePlay statePausedMissingActive 0).error ≠ some EngineError.playbackError ∧
    (togglePlay statePausedMissingActive 0).isPlaying = false := by
  decide

/-- C6 amended: in a paused state whose active buffer is not ready,
`togglePlay` leaves the engine paused with all other state unchanged; when
the library is ready it surfaces a `LoadError` (`'Audio failed to load'`)
for the active track — not a `PlaybackError` — and when the library is not
yet ready it returns silently without surfacing any error.  Retry via
another `togglePlay` remains possible since nothing else changed. -/
theorem togglePlay_unready_buffer_amended (s : EngineState) (now : ℚ)
    (hp : s.isPlaying = false) (hctx : s.hasContext = true)
    (hbuf : s.buffers s.activeTrackId = none) :
    togglePlay s now =
      if isLibraryReady s then { s with error := some EngineError.loadError } else s := by
  simp only [togglePlay, ensureAudioContext_eq s hctx, hbuf]
  cases hr : isLibraryReady s <;> simp [hr]

/-- Witness for C6's amended claim at the concrete ready-library state. -/
theorem togglePlay_unready_buffer_amended_witness :
    togglePlay statePausedMissingActive 0 =
      if isLibraryReady statePausedMissingActive
      then { statePausedMissingActive with error := some EngineError.loadError }
      else statePausedMissingActive :=
  togglePlay_unready_buffer_amended statePausedMissingActive 0 (by decide) (by decide)
    (by decide)

/-- C2 counterexample: playing state with a 1-second buffer; `seek(1)` to
the exact duration restarts the source at an offset clamped to `duration −
SWITCH_TIME_PADDING`, so the transport-clock position read right after the
call is `0.95`, missing `t = 1` by 50 ms — more than the claimed 10 ms
epsilon. -/
theorem seek_epsilon_counterexample :
    statePlayingOneSec.isPlaying = true ∧
    statePlayingOneSec.buffers statePlayingOneSec.activeTrackId = some 1 ∧
    getTransportTime (seek statePlayingOneSec 1 0)
      (seek statePlayingOneSec 1 0).activeTrackId true 0 = 19/20 ∧
    ¬|(1 : ℚ) - getTransportTime (seek statePlayingOneSec 1 0)
      (seek statePlayingOneSec 1 0).activeTrackId true 0| ≤ 1/100 := by
  have hx : getTransportTime (seek statePlayingOneSec 1 0)
      (seek statePlayingOneSec 1 0).activeTrackId true 0 = 19/20 := by
    norm_num [seek, createPlayback, getTransportTime, getTrackDuration, clamp,
      statePlayingOneSec, SWITCH_TIME_PADDING, START_LEAD_TIME_SECONDS]
  refine ⟨rfl, rfl, hx, ?_⟩
  rw [hx, show (1 : ℚ) - 19/20 = 1/20 by norm_num,
    abs_of_pos (show (0 : ℚ) < 1/20 by norm_num)]
  norm_num

/-- C2 amended: for `t ∈ [0, duration]` of the active ready buffer, `seek(t)`
publishes exactly `t` as `currentTime` in every play state; the transport
clock then also reads exactly `t` when paused, and when playing provided
`t ≤ duration − SWITCH_TIME_PADDING`; for `t` inside the final 0.05 s while
playing the restart offset is clamped to `duration − 0.05`, so the
transport position can miss `t` by up to 50 ms, exceeding the 10 ms
epsilon. -/
theorem seek_position_amended (s : EngineState) (t now d : ℚ)
    (hbuf : s.buffers s.activeTrackId = some d)
    (ht0 : 0 ≤ t) (htd : t ≤ d) :
    (seek s t now).currentTime = t ∧
    (s.isPlaying = false →
      ∀ ctx : Bool, getTransportTime (seek s t now) s.activeTrackId ctx now = t) ∧
    (s.isPlaying = true → s.hasContext = true → t + SWITCH_TIME_PADDING ≤ d →
      getTransportTime (seek s t now) s.activeTrackId true now = t) := by
  have hclamp : clamp t 0 d = t := clamp_eq_of_mem ht0 htd
  refine ⟨?_, ?_, ?_⟩
  · by_cases hp : s.isPlaying = true
    · by_cases hctx : s.hasContext = true
      · simp [seek, createPlayback, hbuf, hp, hctx, hclamp]
      · have hctx' : s.hasContext = false := by simpa using hctx
        simp [seek, hbuf, hp, hctx', hclamp]
    · have hp' : s.isPlaying = false := by simpa using hp
      simp [seek, hbuf, hp', hclamp]
  · intro hp' ctx
    have hseek : seek s t now = { s with transportOffset := t, currentTime := t } := by
      simp [seek, hbuf, hp', hclamp]
    rw [hseek]
    have hdur : getTrackDuration { s with transportOffset := t, currentTime := t }
        s.activeTrackId = d := by
      simp [getTrackDuration, hbuf]
    simp only [getTransportTime, hdur]
    split_ifs with h₁ h₂
    · linarith
    · simpa using hclamp
    · exact absurd (Or.inl (by simp [hp'])) h₂
  · intro hp hctx hle
    have hpad : (0 : ℚ) < SWITCH_TIME_PADDING := by rw [SWITCH_TIME_PADDING]; norm_num
    have hdpos : ¬(d ≤ 0) := by intro h; linarith
    have hofs : clamp t 0 (max 0 (d - SWITCH_TIME_PADDING)) = t :=
      clamp_eq_of_mem ht0
        (le_trans (by linarith) (le_max_right 0 (d - SWITCH_TIME_PADDING)))
    have hanchor : max (now + START_LEAD_TIME_SECONDS) now = now + START_LEAD_TIME_SECONDS :=
      max_eq_left (by rw [START_LEAD_TIME_SECONDS]; linarith)
    have hseek : seek s t now =
        { s with transportOffset := t,
                 currentTime := t,
                 playback := some (s.playbackId + 1),
                 playbackId := s.playbackId + 1,
                 transportStartContextTime := now + START_LEAD_TIME_SECONDS } := by
      simp [seek, createPlayback, hbuf, hp, hctx, hclamp, hofs, hanchor]
    rw [hseek]
    have helapsed : (0 : ℚ) ⊔ -START_LEAD_TIME_SECONDS = 0 :=
      max_eq_left (by rw [START_LEAD_TIME_SECONDS]; norm_num)
    simp [getTransportTime, getTrackDuration, hbuf, hp, hdpos, helapsed, hclamp]

/-- Witness for C2's amended claim: a mid-buffer seek to 0.5 s inside a
1-second track. -/
theorem seek_position_amended_witness :
    (seek statePlayingOneSec (1/2) 0).currentTime = 1/2 ∧
    (statePlayingOneSec.isPlaying = false →
      ∀ ctx : Bool, getTransportTime (seek statePlayingOneSec (1/2) 0)
        statePlayingOneSec.activeTrackId ctx 0 = 1/2) ∧
    (statePlayingOneSec.isPlaying = true → statePlayingOneSec.hasContext = true →
      1/2 + SWITCH_TIME_PADDING ≤ 1 →
      getTransportTime (seek statePlayingOneSec (1/2) 0)
        statePlayingOneSec.activeTrackId true 0 = 1/2) :=
  seek_position_amended statePlayingOneSec (1/2) 0 1 (by decide) (by norm_num) (by norm_num)

/-- C7: while playing, a natural-completion signal whose session id matches
the tracked session, the session playing the active track, pauses the
engine with the published position and the transport offset frozen at
exactly the track's full duration; a following `togglePlay` then wraps,
starting the new session from offset 0 instead of the end. -/
theorem sessionEnded_pauses_at_duration_then_wraps (s : EngineState) (pid : ℕ)
    (d now : ℚ) (hpb : s.playback = some pid) (hplay : s.isPlaying = true)
    (hbuf : s.buffers s.activeTrackId = some d) (hd : 0 ≤ d)
    (hready : s.totalTracks ≤ s.readyTrackCount) (hctx : s.hasContext = true) :
    (sessionEnded s pid s.activeTrackId).isPlaying = false ∧
    (sessionEnded s pid s.activeTrackId).currentTime = d ∧
    (sessionEnded s pid s.activeTrackId).transportOffset = d ∧
    (togglePlay (sessionEnded s pid s.activeTrackId) now).isPlaying = true ∧
    (togglePlay (sessionEnded s pid s.activeTrackId) now).transportOffset = 0 := by
  have hend : sessionEnded s pid s.activeTrackId =
      { s with playback := none, transportOffset := d, currentTime := d,
               isPlaying := false } := by
    simp [sessionEnded, hpb, hplay, getTrackDuration, hbuf]
  have hM : clamp d 0 (max 0 (d - SWITCH_TIME_PADDING)) = max 0 (d - SWITCH_TIME_PADDING) := by
    rw [clamp, max_eq_right hd]
    exact min_eq_left
      (max_zero_sub_le hd (by rw [SWITCH_TIME_PADDING]; norm_num))
  have h0M : clamp 0 0 (max 0 (d - SWITCH_TIME_PADDING)) = 0 :=
    clamp_eq_of_mem (le_refl 0) (le_max_left _ _)
  refine ⟨by rw [hend], by rw [hend], by rw [hend], ?_, ?_⟩ <;>
  · rw [hend]
    simp [togglePlay, ensureAudioContext, isLibraryReady, hready, hbuf,
      createPlayback, hctx, hplay, hM, h0M]

/-- Witness for C7: a 2-second track whose live session (id 1) completes,
then `togglePlay` at hardware time 5 restarts from offset 0. -/
theorem sessionEnded_pauses_at_duration_then_wraps_witness :
    (sessionEnded statePlayingNearEnd 1 statePlayingNearEnd.activeTrackId).isPlaying
      = false ∧
    (sessionEnded statePlayingNearEnd 1 statePlayingNearEnd.activeTrackId).currentTime
      = 2 ∧
    (sessionEnded statePlayingNearEnd 1 statePlayingNearEnd.activeTrackId).transportOffset
      = 2 ∧
    (togglePlay (sessionEnded statePlayingNearEnd 1 statePlayingNearEnd.activeTrackId)
      5).isPlaying = true ∧
    (togglePlay (sessionEnded statePlayingNearEnd 1 statePlayingNearEnd.activeTrackId)
      5).transportOffset = 0 :=
  sessionEnded_pauses_at_duration_then_wraps statePlayingNearEnd 1 2 5 (by decide)
    (by decide) (by decide) (by decide) (by decide) (by decide)

/-- C1: while playing with the next track's buffer ready and distinct from
the current one, `switchTrack` keeps `isPlaying` true and carries the
transport position computed under the current track over verbatim, clamped
to the next buffer's valid range `[0, duration − SWITCH_TIME_PADDING]`:
the reported position after the switch equals that clamp, is exactly the
prior position whenever it fits the range, and against a co-durational
current track never decreases by more than the 0.05 s padding. -/
theorem switchTrack_playing_preserves_position (s : EngineState) (nextId : TrackId)
    (now d : ℚ) (hplay : s.isPlaying = true) (hctx : s.hasContext = true)
    (hne : nextId ≠ s.activeTrackId) (hbuf : s.buffers nextId = some d) (hd : 0 ≤ d) :
    (switchTrack s nextId now).isPlaying = true ∧
    (switchTrack s nextId now).activeTrackId = nextId ∧
    (switchTrack s nextId now).currentTime =
      clamp (getTransportTime s s.activeTrackId true now) 0
        (max 0 (d - SWITCH_TIME_PADDING)) ∧
    getTransportTime (switchTrack s nextId now) nextId true now =
      (switchTrack s nextId now).currentTime ∧
    (getTransportTime s s.activeTrackId true now + SWITCH_TIME_PADDING ≤ d →
      (switchTrack s nextId now).currentTime =
        getTransportTime s s.activeTrackId true now) ∧
    (getTrackDuration s s.activeTrackId = d →
      getTransportTime s s.activeTrackId true now -
          (switchTrack s nextId now).currentTime ≤ SWITCH_TIME_PADDING ∧
        (switchTrack s nextId now).currentTime ≤
          getTransportTime s s.activeTrackId true now) := by
  have hpad : (0 : ℚ) < SWITCH_TIME_PADDING := by rw [SWITCH_TIME_PADDING]; norm_num
  have hposB0 : 0 ≤ getTransportTime s s.activeTrackId true now :=
    getTransportTime_nonneg s s.activeTrackId true now
  have h0M : (0 : ℚ) ≤ max 0 (d - SWITCH_TIME_PADDING) := le_max_left _ _
  have hMd : max 0 (d - SWITCH_TIME_PADDING) ≤ d := max_zero_sub_le hd (le_of_lt hpad)
  have hanchor : max (now + START_LEAD_TIME_SECONDS) now = now + START_LEAD_TIME_SECONDS :=
    max_eq_left (by rw [START_LEAD_TIME_SECONDS]; linarith)
  have hidem : clamp (clamp (getTransportTime s s.activeTrackId true now) 0
        (max 0 (d - SWITCH_TIME_PADDING))) 0 (max 0 (d - SWITCH_TIME_PADDING)) =
      clamp (getTransportTime s s.activeTrackId true now) 0
        (max 0 (d - SWITCH_TIME_PADDING)) :=
    clamp_eq_of_mem (lo_le_clamp _ _ _ h0M) (clamp_le_hi _ _ _)
  have hswitch : switchTrack s nextId now =
      { s with activeTrackId := nextId,
               transportOffset := clamp (getTransportTime s s.activeTrackId true now) 0
                 (max 0 (d - SWITCH_TIME_PADDING)),
               currentTime := clamp (getTransportTime s s.activeTrackId true now) 0
                 (max 0 (d - SWITCH_TIME_PADDING)),
               duration := d,
               error := none,
               playback := some (s.playbackId + 1),
               playbackId := s.playbackId + 1,
               transportStartContextTime := now + START_LEAD_TIME_SECONDS } := by
    simp [switchTrack, hne, hbuf, hplay, hctx, createPlayback, hanchor, hidem]
  refine ⟨by rw [hswitch]; exact hplay, by rw [hswitch], by rw [hswitch], ?_, ?_, ?_⟩
  · have h4 : getTransportTime (switchTrack s nextId now) nextId true now =
        (switchTrack s nextId now).transportOffset := by
      apply getTransportTime_anchor_ahead
      · rw [hswitch]
        show now ≤ now + START_LEAD_TIME_SECONDS
        rw [START_LEAD_TIME_SECONDS]; linarith
      · rw [hswitch]
        exact lo_le_clamp _ _ _ h0M
      · rw [hswitch]
        show clamp _ 0 _ ≤ getTrackDuration _ nextId
        have hgd : getTrackDuration (switchTrack s nextId now) nextId = d := by
          rw [hswitch]
          simp [getTrackDuration, hbuf]
        rw [hswitch] at hgd
        rw [hgd]
        exact le_trans (clamp_le_hi _ _ _) hMd
    rw [h4, hswitch]
  · intro hle
    rw [hswitch]
    exact clamp_eq_of_mem hposB0
      (le_trans (by linarith) (le_max_right 0 (d - SWITCH_TIME_PADDING)))
  · intro hcd
    have hposBd : getTransportTime s s.activeTrackId true now ≤ d := by
      have h := getTransportTime_le_duration s s.activeTrackId true now (by rw [hcd]; exact hd)
      rwa [hcd] at h
    have hmin : clamp (getTransportTime s s.activeTrackId true now) 0
          (max 0 (d - SWITCH_TIME_PADDING)) =
        min (max 0 (d - SWITCH_TIME_PADDING)) (getTransportTime s s.activeTrackId true now) := by
      rw [clamp, max_eq_right hposB0]
    have hlow : getTransportTime s s.activeTrackId true now - SWITCH_TIME_PADDING ≤
        min (max 0 (d - SWITCH_TIME_PADDING)) (getTransportTime s s.activeTrackId true now) :=
      le_min (le_trans (by linarith) (le_max_right 0 (d - SWITCH_TIME_PADDING)))
        (by linarith)
    constructor
    · rw [hswitch]
      simp only [hmin]
      linarith [hlow]
    · rw [hswitch]
      simp only [hmin]
      exact min_le_right _ _

/-- Witness for C1: switching from the playing `original` track to the
ready `master-1` track of the same 1-second duration. -/
theorem switchTrack_playing_preserves_position_witness :
    (switchTrack statePlayingOneSec TrackId.master1 0).isPlaying = true ∧
    (switchTrack statePlayingOneSec TrackId.master1 0).activeTrackId = TrackId.master1 ∧
    (switchTrack statePlayingOneSec TrackId.master1 0).currentTime =
      clamp (getTransportTime statePlayingOneSec statePlayingOneSec.activeTrackId true 0) 0
        (max 0 (1 - SWITCH_TIME_PADDING)) ∧
    getTransportTime (switchTrack statePlayingOneSec TrackId.master1 0) TrackId.master1
        true 0 = (switchTrack statePlayingOneSec TrackId.master1 0).currentTime ∧
    (getTransportTime statePlayingOneSec statePlayingOneSec.activeTrackId true 0 +
        SWITCH_TIME_PADDING ≤ 1 →
      (switchTrack statePlayingOneSec TrackId.master1 0).currentTime =
        getTransportTime statePlayingOneSec statePlayingOneSec.activeTrackId true 0) ∧
    (getTrackDuration statePlayingOneSec statePlayingOneSec.activeTrackId = 1 →
      getTransportTime statePlayingOneSec statePlayingOneSec.activeTrackId true 0 -
          (switchTrack statePlayingOneSec TrackId.master1 0).currentTime ≤
        SWITCH_TIME_PADDING ∧
        (switchTrack statePlayingOneSec TrackId.master1 0).currentTime ≤
          getTransportTime statePlayingOneSec statePlayingOneSec.activeTrackId true 0) :=
  switchTrack_playing_preserves_position statePlayingOneSec TrackId.master1 0 1 rfl rfl
    (by decide) (by decide) (by decide)

theorem getTransportTime_paused_eq_offset (s : EngineState) (trackId : TrackId)
    (ctx : Bool) (now : ℚ) (hp : s.isPlaying = false) (h0 : 0 ≤ s.transportOffset)
    (hle : s.transportOffset ≤ getTrackDuration s trackId) :
    getTransportTime s trackId ctx now = s.transportOffset := by
  by_cases hd0 : getTrackDuration s trackId ≤ 0
  · have hz : s.transportOffset = 0 := le_antisymm (le_trans hle hd0) h0
    simp [getTransportTime, hd0, hz]
  · simp [getTransportTime, hd0, hp, clamp_eq_of_mem h0 hle]

theorem offsetInRange_seek (s : EngineState)
    (hdur : ∀ t, 0 ≤ getTrackDuration s t) (hoff : offsetInRange s)
    (t n : ℚ) : offsetInRange (seek s t n) := by
  cases hb : s.buffers s.activeTrackId with
  | none =>
    have hid : seek s t n = s := by simp [seek, hb]
    rw [hid]; exact hoff
  | some d =>
    have hd : 0 ≤ d := by
      have h := hdur s.activeTrackId
      rwa [getTrackDuration, hb, Option.getD_some] at h
    have hpad : (0 : ℚ) ≤ SWITCH_TIME_PADDING := by rw [SWITCH_TIME_PADDING]; norm_num
    by_cases hp : s.isPlaying = true
    · by_cases hctx : s.hasContext = true
      · have hfields : (seek s t n).transportOffset =
            clamp (clamp t 0 d) 0 (max 0 (d - SWITCH_TIME_PADDING)) ∧
            (seek s t n).activeTrackId = s.activeTrackId ∧
            (seek s t n).buffers = s.buffers := by
          simp [seek, hb, hp, hctx, createPlayback]
        obtain ⟨h1, h2, h3⟩ := hfields
        refine ⟨?_, ?_⟩
        · rw [h1]; exact lo_le_clamp _ _ _ (le_max_left _ _)
        · rw [h1]
          show _ ≤ getTrackDuration (seek s t n) (seek s t n).activeTrackId
          rw [getTrackDuration, h2, h3, hb, Option.getD_some]
          exact le_trans (clamp_le_hi _ _ _) (max_zero_sub_le hd hpad)
      · have hctx' : s.hasContext = false := by simpa using hctx
        have hfields : (seek s t n).transportOffset = clamp t 0 d ∧
            (seek s t n).activeTrackId = s.activeTrackId ∧
            (seek s t n).buffers = s.buffers := by
          simp [seek, hb, hp, hctx']
        obtain ⟨h1, h2, h3⟩ := hfields
        refine ⟨?_, ?_⟩
        · rw [h1]; exact lo_le_clamp _ _ _ hd
        · rw [h1]
          show _ ≤ getTrackDuration (seek s t n) (seek s t n).activeTrackId
          rw [getTrackDuration, h2, h3, hb, Option.getD_some]
          exact clamp_le_hi _ _ _
    · have hp' : s.isPlaying = false := by simpa using hp
      have hfields : (seek s t n).transportOffset = clamp t 0 d ∧
          (seek s t n).activeTrackId = s.activeTrackId ∧
          (seek s t n).buffers = s.buffers := by
        simp [seek, hb, hp']
      obtain ⟨h1, h2, h3⟩ := hfields
      refine ⟨?_, ?_⟩
      · rw [h1]; exact lo_le_clamp _ _ _ hd
      · rw [h1]
        show _ ≤ getTrackDuration (seek s t n) (seek s t n).activeTrackId
        rw [getTrackDuration, h2, h3, hb, Option.getD_some]
        exact clamp_le_hi _ _ _

theorem offsetInRange_switchTrack (s : EngineState)
    (hdur : ∀ t, 0 ≤ getTrackDuration s t) (hoff : offsetInRange s)
    (nextId : TrackId) (n : ℚ) : offsetInRange (switchTrack s nextId n) := by
  by_cases hne : nextId = s.activeTrackId
  · have hid : switchTrack s nextId n = s := by rw [hne]; simp [switchTrack]
    rw [hid]; exact hoff
  · have hpad : (0 : ℚ) ≤ SWITCH_TIME_PADDING := by rw [SWITCH_TIME_PADDING]; norm_num
    cases hb : s.buffers nextId with
    | none =>
      have hmax : (0 : ℚ) ⊔ -SWITCH_TIME_PADDING = 0 :=
        max_eq_left (by rw [SWITCH_TIME_PADDING]; norm_num)
      have hfields : (switchTrack s nextId n).transportOffset = 0 ∧
          (switchTrack s nextId n).activeTrackId = nextId ∧
          (switchTrack s nextId n).buffers = s.buffers := by
        simp [switchTrack, hne, hb, hmax, clamp_zero_zero]
      obtain ⟨h1, h2, h3⟩ := hfields
      refine ⟨?_, ?_⟩
      · rw [h1]
      · rw [h1]
        show (0 : ℚ) ≤ getTrackDuration (switchTrack s nextId n)
          (switchTrack s nextId n).activeTrackId
        rw [getTrackDuration, h2, h3, hb]
        simp
    | some dn =>
      have hdn : 0 ≤ dn := by
        have h := hdur nextId
        rwa [getTrackDuration, hb, Option.getD_some] at h
      have hbound : ∀ x : ℚ, 0 ≤ clamp x 0 (max 0 (dn - SWITCH_TIME_PADDING)) ∧
          clamp x 0 (max 0 (dn - SWITCH_TIME_PADDING)) ≤ dn := fun x =>
        ⟨lo_le_clamp _ _ _ (le_max_left _ _),
          le_trans (clamp_le_hi _ _ _) (max_zero_sub_le hdn hpad)⟩
      by_cases hp : s.isPlaying = true
      · by_cases hctx : s.hasContext = true
        · have hfields : (switchTrack s nextId n).transportOffset =
              clamp (clamp (getTransportTime s s.activeTrackId true n) 0
                (max 0 (dn - SWITCH_TIME_PADDING))) 0
                (max 0 (dn - SWITCH_TIME_PADDING)) ∧
              (switchTrack s nextId n).activeTrackId = nextId ∧
              (switchTrack s nextId n).buffers = s.buffers := by
            simp [switchTrack, hne, hb, hp, hctx, createPlayback]
          obtain ⟨h1, h2, h3⟩ := hfields
          refine ⟨?_, ?_⟩
          · rw [h1]; exact (hbound _).1
          · rw [h1]
            show _ ≤ getTrackDuration (switchTrack s nextId n)
              (switchTrack s nextId n).activeTrackId
            rw [getTrackDuration, h2, h3, hb, Option.getD_some]
            exact (hbound _).2
        · have hctx' : s.hasContext = false := by simpa using hctx
          have hfields : (switchTrack s nextId n).transportOffset =
              clamp s.transportOffset 0 (max 0 (dn - SWITCH_TIME_PADDING)) ∧
              (switchTrack s nextId n).activeTrackId = nextId ∧
              (switchTrack s nextId n).buffers = s.buffers := by
            simp [switchTrack, hne, hb, hp, hctx']
          obtain ⟨h1, h2, h3⟩ := hfields
          refine ⟨?_, ?_⟩
          · rw [h1]; exact (hbound _).1
          · rw [h1]
            show _ ≤ getTrackDuration (switchTrack s nextId n)
              (switchTrack s nextId n).activeTrackId
            rw [getTrackDuration, h2, h3, hb, Option.getD_some]
            exact (hbound _).2
      · have hp' : s.isPlaying = false := by simpa using hp
        have hfields : (switchTrack s nextId n).transportOffset =
            clamp (if s.hasContext = true then getTransportTime s s.activeTrackId true n
              else s.transportOffset) 0 (max 0 (dn - SWITCH_TIME_PADDING)) ∧
            (switchTrack s nextId n).activeTrackId = nextId ∧
            (switchTrack s nextId n).buffers = s.buffers := by
          simp [switchTrack, hne, hb, hp']
        obtain ⟨h1, h2, h3⟩ := hfields
        refine ⟨?_, ?_⟩
        · rw [h1]; exact (hbound _).1
        · rw [h1]
          show _ ≤ getTrackDuration (switchTrack s nextId n)
            (switchTrack s nextId n).activeTrackId
          rw [getTrackDuration, h2, h3, hb, Option.getD_some]
          exact (hbound _).2

theorem offsetInRange_togglePlay_ctx (s : EngineState) (hctx : s.hasContext = true)
    (hdur : ∀ t, 0 ≤ getTrackDuration s t) (hoff : offsetInRange s) (n : ℚ) :
    offsetInRange (togglePlay s n) := by
  by_cases hr : isLibraryReady s = true
  case neg =>
    have hr' : isLibraryReady s = false := by simpa using hr
    have hid : togglePlay s n = s := by
      simp [togglePlay, ensureAudioContext_eq s hctx, hr']
    rw [hid]; exact hoff
  case pos =>
    cases hb : s.buffers s.activeTrackId with
    | none =>
      have hid : togglePlay s n = { s with error := some EngineError.loadError } := by
        simp [togglePlay, ensureAudioContext_eq s hctx, hr, hb]
      rw [hid]; exact hoff
    | some d =>
      have hd : 0 ≤ d := by
        have h := hdur s.activeTrackId
        rwa [getTrackDuration, hb, Option.getD_some] at h
      have hpad : (0 : ℚ) ≤ SWITCH_TIME_PADDING := by rw [SWITCH_TIME_PADDING]; norm_num
      by_cases hp : s.isPlaying = true
      · have hpause : togglePlay s n =
            { s with transportOffset := getTransportTime s s.activeTrackId true n,
                     currentTime := getTransportTime s s.activeTrackId true n,
                     isPlaying := false, playback := none } := by
          simp [togglePlay, ensureAudioContext_eq s hctx, hr, hb, hp]
        rw [hpause]
        exact ⟨getTransportTime_nonneg _ _ _ _,
          getTransportTime_le_duration s s.activeTrackId true n (hdur _)⟩
      · have hp' : s.isPlaying = false := by simpa using hp
        have hfields : (togglePlay s n).transportOffset =
            clamp (if max 0 (d - SWITCH_TIME_PADDING) ≤
                clamp s.transportOffset 0 (max 0 (d - SWITCH_TIME_PADDING)) then 0
              else clamp s.transportOffset 0 (max 0 (d - SWITCH_TIME_PADDING))) 0
              (max 0 (d - SWITCH_TIME_PADDING)) ∧
            (togglePlay s n).activeTrackId = s.activeTrackId ∧
            (togglePlay s n).buffers = s.buffers := by
          simp [togglePlay, ensureAudioContext_eq s hctx, hr, hb, hp', createPlayback, hctx]
        obtain ⟨h1, h2, h3⟩ := hfields
        refine ⟨?_, ?_⟩
        · rw [h1]; exact lo_le_clamp _ _ _ (le_max_left _ _)
        · rw [h1]
          show _ ≤ getTrackDuration (togglePlay s n) (togglePlay s n).activeTrackId
          rw [getTrackDuration, h2, h3, hb, Option.getD_some]
          exact le_trans (clamp_le_hi _ _ _) (max_zero_sub_le hd hpad)

theorem offsetInRange_togglePlay (s : EngineState)
    (hdur : ∀ t, 0 ≤ getTrackDuration s t) (hoff : offsetInRange s) (n : ℚ) :
    offsetInRange (togglePlay s n) := by
  by_cases hctx : s.hasContext = true
  · exact offsetInRange_togglePlay_ctx s hctx hdur hoff n
  · have hctx' : s.hasContext = false := by simpa using hctx
    have hswap : togglePlay s n = togglePlay { s with hasContext := true } n := by
      simp [togglePlay, ensureAudioContext, hctx']
    rw [hswap]
    exact offsetInRange_togglePlay_ctx { s with hasContext := true } rfl hdur hoff n

theorem offsetInRange_sessionEnded_active (s : EngineState)
    (hdur : ∀ t, 0 ≤ getTrackDuration s t) (hoff : offsetInRange s) (pid : ℕ) :
    offsetInRange (sessionEnded s pid s.activeTrackId) := by
  by_cases hpb : s.playback = some pid
  · by_cases hp : s.isPlaying = true
    · have hid : sessionEnded s pid s.activeTrackId =
          { s with playback := none,
                   transportOffset := getTrackDuration s s.activeTrackId,
                   currentTime := getTrackDuration s s.activeTrackId,
                   isPlaying := false } := by
        simp [sessionEnded, hpb, hp, getTrackDuration]
      rw [hid]
      exact ⟨hdur _, le_refl _⟩
    · have hp' : s.isPlaying = false := by simpa using hp
      have hid : sessionEnded s pid s.activeTrackId = { s with playback := none } := by
        simp [sessionEnded, hpb, hp']
      rw [hid]; exact hoff
  · have hid : sessionEnded s pid s.activeTrackId = s := by simp [sessionEnded, hpb]
    rw [hid]; exact hoff

/-- C9 counterexample: a playing state whose session anchor (`0.005`, the
scheduled start) lies ahead of the hardware clock reading `0`.  The code
floors the elapsed time at zero and reports the offset `10`; the spec's
formula subtracts the anchor unconditionally and yields `9.995`. -/
theorem transport_position_formula_counterexample :
    stateAnchorAhead.isPlaying = true ∧
    stateAnchorAhead.transportOffset = 10 ∧
    stateAnchorAhead.transportStartContextTime = 1/200 ∧
    getTrackDuration stateAnchorAhead TrackId.original = 100 ∧
    getTransportTime stateAnchorAhead TrackId.original true 0 = 10 ∧
    specTransportPosition 10 (1/200) true 0 100 = 1999/200 ∧
    getTransportTime stateAnchorAhead TrackId.original true 0 ≠
      specTransportPosition 10 (1/200) true 0 100 := by
  have h5 : getTransportTime stateAnchorAhead TrackId.original true 0 = 10 := by
    norm_num [getTransportTime, getTrackDuration, clamp, stateAnchorAhead,
      statePlayingOneSec]
  have h6 : specTransportPosition 10 (1/200) true 0 100 = 1999/200 := by
    norm_num [specTransportPosition, clamp]
  exact ⟨rfl, rfl, rfl, by norm_num [getTrackDuration, stateAnchorAhead,
    statePlayingOneSec], h5, h6, by rw [h5, h6]; norm_num⟩

/-- C9 amended: the computed position equals `clamp(offset + (isPlaying ?
max(0, now − anchor) : 0), 0, duration)` — the elapsed term is floored at
zero, so a clock reading earlier than the (future-scheduled) anchor
reports the offset itself rather than `offset − lead`; the computation is
total, never negative and never exceeds the track's duration; and each
public operation (`seek`, `switchTrack`, `togglePlay`), as well as a
completion of a session playing the active track, stores a transport
offset within `[0, duration]` of the then-active track. -/
theorem transport_position_amended (s : EngineState) (trackId : TrackId) (now : ℚ)
    (hdur : ∀ t, 0 ≤ getTrackDuration s t) (hoff : offsetInRange s) :
    getTransportTime s trackId true now =
      clamp (s.transportOffset +
        (if s.isPlaying then max 0 (now - s.transportStartContextTime) else 0)) 0
        (getTrackDuration s trackId) ∧
    0 ≤ getTransportTime s trackId true now ∧
    getTransportTime s trackId true now ≤ getTrackDuration s trackId ∧
    (∀ t n, offsetInRange (seek s t n)) ∧
    (∀ nid n, offsetInRange (switchTrack s nid n)) ∧
    (∀ n, offsetInRange (togglePlay s n)) ∧
    (∀ pid, offsetInRange (sessionEnded s pid s.activeTrackId)) := by
  refine ⟨?_, getTransportTime_nonneg s trackId true now,
    getTransportTime_le_duration s trackId true now (hdur trackId),
    fun t n => offsetInRange_seek s hdur hoff t n,
    fun nid n => offsetInRange_switchTrack s hdur hoff nid n,
    fun n => offsetInRange_togglePlay s hdur hoff n,
    fun pid => offsetInRange_sessionEnded_active s hdur hoff pid⟩
  by_cases hd0 : getTrackDuration s trackId ≤ 0
  · have hz : getTrackDuration s trackId = 0 := le_antisymm hd0 (hdur trackId)
    simp [getTransportTime, hd0, hz, clamp_zero_zero]
  · by_cases hp : s.isPlaying = true
    · simp [getTransportTime, hd0, hp]
    · have hp' : s.isPlaying = false := by simpa using hp
      simp [getTransportTime, hd0, hp']

/-- Witness for C9's amended claim at the fully loaded playing state. -/
theorem transport_position_amended_witness :
    (getTransportTime statePlayingOneSec TrackId.original true 0 =
      clamp (statePlayingOneSec.transportOffset +
        (if statePlayingOneSec.isPlaying then
          max 0 (0 - statePlayingOneSec.transportStartContextTime) else 0)) 0
        (getTrackDuration statePlayingOneSec TrackId.original)) ∧
    0 ≤ getTransportTime statePlayingOneSec TrackId.original true 0 ∧
    getTransportTime statePlayingOneSec TrackId.original true 0 ≤
      getTrackDuration statePlayingOneSec TrackId.original ∧
    (∀ t n, offsetInRange (seek statePlayingOneSec t n)) ∧
    (∀ nid n, offsetInRange (switchTrack statePlayingOneSec nid n)) ∧
    (∀ n, offsetInRange (togglePlay statePlayingOneSec n)) ∧
    (∀ pid, offsetInRange (sessionEnded statePlayingOneSec pid
      statePlayingOneSec.activeTrackId)) :=
  transport_position_amended statePlayingOneSec TrackId.original 0
    (by intro t; cases t <;> decide) ⟨by decide, by decide⟩

theorem switchTrack_not_playing_eq (s : EngineState) (nextId : TrackId) (now : ℚ)
    (hp : s.isPlaying = false) (hne : nextId ≠ s.activeTrackId) :
    switchTrack s nextId now =
      { s with activeTrackId := nextId,
               transportOffset := clamp
                 (if s.hasContext = true then getTransportTime s s.activeTrackId true now
                  else s.transportOffset) 0
                 (max 0 ((s.buffers nextId).getD 0 - SWITCH_TIME_PADDING)),
               currentTime := clamp
                 (if s.hasContext = true then getTransportTime s s.activeTrackId true now
                  else s.transportOffset) 0
                 (max 0 ((s.buffers nextId).getD 0 - SWITCH_TIME_PADDING)),
               duration := (s.buffers nextId).getD 0,
               error := if (s.buffers nextId).isSome = true then none
                        else some EngineError.loadError } := by
  simp [switchTrack, hne, hp]

set_option maxHeartbeats 1000000 in
theorem statePausedAtEnd_eval : statePausedAtEnd =
    { buffers := fun t => if t = TrackId.master3 then some 100 else
        if t = TrackId.master2 then some 100 else
        if t = TrackId.master1 then some 100 else
        if t = TrackId.original then some 100 else none,
      activeTrackId := TrackId.original, isPlaying := false, currentTime := 100,
      duration := 100, volume := INITIAL_VOLUME, readyTrackCount := 4, totalTracks := 4,
      error := none, playback := none, playbackId := 0, transportOffset := 100,
      transportStartContextTime := 0, hasContext := true } := by
  simp [statePausedAtEnd, seek, trackLoadResolved, initState, clamp, SWITCH_TIME_PADDING]

/-- C4 counterexample: the reachable paused state `statePausedAtEnd` sits at
position 100 (a paused `seek` to the exact duration), every buffer is
ready, yet `switchTrack('master-1')` clamps the carried position to
`duration − SWITCH_TIME_PADDING = 99.95`, so the reported position is not
left unchanged (the paused flag and the absence of any new session do
hold). -/
theorem switchTrack_paused_position_counterexample :
    statePausedAtEnd.isPlaying = false ∧
    isLibraryReady statePausedAtEnd = true ∧
    statePausedAtEnd.buffers TrackId.master1 = some 100 ∧
    statePausedAtEnd.currentTime = 100 ∧
    (switchTrack statePausedAtEnd TrackId.master1 0).isPlaying = false ∧
    (switchTrack statePausedAtEnd TrackId.master1 0).playbackId
      = statePausedAtEnd.playbackId ∧
    (switchTrack statePausedAtEnd TrackId.master1 0).currentTime = 1999/20 ∧
    (switchTrack statePausedAtEnd TrackId.master1 0).currentTime ≠
      statePausedAtEnd.currentTime := by
  rw [statePausedAtEnd_eval]
  refine ⟨rfl, rfl, by simp, rfl, ?_, ?_, ?_, ?_⟩ <;>
  · simp [switchTrack, getTransportTime, getTrackDuration, clamp, createPlayback,
      SWITCH_TIME_PADDING, START_LEAD_TIME_SECONDS] <;> norm_num

/-- C4 amended: from a paused state with the transport in sync and in
range, any sequence of `switchTrack` calls onto tracks whose buffers are
ready keeps `isPlaying` false, creates no playback session (the session
counter and the tracked playback are untouched), and leaves the reported
position and transport offset unchanged provided the position is at most
each target buffer's duration minus the 0.05 s `SWITCH_TIME_PADDING`
(otherwise the position is clamped into the target's valid range, as the
counterexample shows). -/
theorem switchTrack_paused_sequence_amended (l : List TrackId) (s : EngineState)
    (now : ℚ) (hp : s.isPlaying = false)
    (hsync : s.transportOffset = s.currentTime)
    (h0 : 0 ≤ s.currentTime)
    (hcur : s.currentTime ≤ getTrackDuration s s.activeTrackId)
    (hl : ∀ tid ∈ l, (s.buffers tid).isSome = true ∧
      s.currentTime + SWITCH_TIME_PADDING ≤ (s.buffers tid).getD 0) :
    (l.foldl (fun st tid => switchTrack st tid now) s).isPlaying = false ∧
    (l.foldl (fun st tid => switchTrack st tid now) s).currentTime = s.currentTime ∧
    (l.foldl (fun st tid => switchTrack st tid now) s).transportOffset
      = s.transportOffset ∧
    (l.foldl (fun st tid => switchTrack st tid now) s).playbackId = s.playbackId ∧
    (l.foldl (fun st tid => switchTrack st tid now) s).playback = s.playback := by
  induction l generalizing s with
  | nil => exact ⟨hp, rfl, rfl, rfl, rfl⟩
  | cons tid rest ih =>
    obtain ⟨hsome, hfit⟩ := hl tid (List.mem_cons_self _ _)
    by_cases heq : tid = s.activeTrackId
    · have hstep : switchTrack s tid now = s := by rw [heq]; simp [switchTrack]
      simp only [List.foldl_cons, hstep]
      exact ih s hp hsync h0 hcur (fun t ht => hl t (List.mem_cons_of_mem _ ht))
    · have hpad : (0 : ℚ) ≤ SWITCH_TIME_PADDING := by rw [SWITCH_TIME_PADDING]; norm_num
      obtain ⟨d, hb⟩ : ∃ d, s.buffers tid = some d := by
        cases hbb : s.buffers tid with
        | none => rw [hbb] at hsome; simp at hsome
        | some d => exact ⟨d, rfl⟩
      have hfit' : s.currentTime + SWITCH_TIME_PADDING ≤ d := by
        rwa [hb, Option.getD_some] at hfit
      have htt : (if s.hasContext = true then getTransportTime s s.activeTrackId true now
          else s.transportOffset) = s.currentTime := by
        by_cases hc : s.hasContext = true
        · rw [if_pos hc,
            getTransportTime_paused_eq_offset s s.activeTrackId true now hp
              (by rw [hsync]; exact h0) (by rw [hsync]; exact hcur)]
          exact hsync
        · rw [if_neg hc]
          exact hsync
      have hclampct : clamp s.currentTime 0 (max 0 (d - SWITCH_TIME_PADDING))
          = s.currentTime :=
        clamp_eq_of_mem h0
          (le_trans (by linarith) (le_max_right 0 (d - SWITCH_TIME_PADDING)))
      have hstep : switchTrack s tid now =
          { s with activeTrackId := tid, transportOffset := s.currentTime,
                   currentTime := s.currentTime, duration := d, error := none } := by
        rw [switchTrack_not_playing_eq s tid now hp heq, hb]
        simp [htt, hclampct]
      simp only [List.foldl_cons, hstep]
      have hres := ih
        { s with activeTrackId := tid, transportOffset := s.currentTime,
                 currentTime := s.currentTime, duration := d, error := none }
        hp rfl h0
        (by show s.currentTime ≤ getTrackDuration _ tid
            rw [getTrackDuration]
            show s.currentTime ≤ (s.buffers tid).getD 0
            rw [hb, Option.getD_some]
            linarith)
        (fun t ht => hl t (List.mem_cons_of_mem _ ht))
      obtain ⟨r1, r2, r3, r4, r5⟩ := hres
      refine ⟨r1, ?_, ?_, ?_, ?_⟩
      · rw [r2]
      · rw [r3]
        exact hsync.symm
      · rw [r4]
      · rw [r5]

/-- Witness for C4's amended claim: paused at 45 s inside 100-second
buffers, switching through `master-1` then `master-2` leaves everything
observable unchanged. -/
theorem switchTrack_paused_sequence_amended_witness :
    (([TrackId.master1, TrackId.master2].foldl
        (fun st tid => switchTrack st tid 0) statePausedMid).isPlaying = false) ∧
    ([TrackId.master1, TrackId.master2].foldl
        (fun st tid => switchTrack st tid 0) statePausedMid).currentTime
      = statePausedMid.currentTime ∧
    ([TrackId.master1, TrackId.master2].foldl
        (fun st tid => switchTrack st tid 0) statePausedMid).transportOffset
      = statePausedMid.transportOffset ∧
    ([TrackId.master1, TrackId.master2].foldl
        (fun st tid => switchTrack st tid 0) statePausedMid).playbackId
      = statePausedMid.playbackId ∧
    ([TrackId.master1, TrackId.master2].foldl
        (fun st tid => switchTrack st tid 0) statePausedMid).playback
      = statePausedMid.playback :=
  switchTrack_paused_sequence_amended [TrackId.master1, TrackId.master2]
    statePausedMid 0
    (by simp [statePausedMid, statePausedAtEnd_eval])
    rfl
    (by norm_num [statePausedMid])
    (by simp [statePausedMid, statePausedAtEnd_eval, getTrackDuration] <;> norm_num)
    (by intro t ht
        fin_cases ht <;>
          simp [statePausedMid, statePausedAtEnd_eval, SWITCH_TIME_PADDING] <;>
            norm_num)

end LandrMastering
